import Mathlib

/-!
Shallow embedding of the push/decoding, discovery and configuration core of
the `xiaomi_aqara_custom` Home Assistant component
(`src/xiaomi_aqara_custom/__init__.py` and `src/xiaomi_aqara_custom/switch.py`).

Conventions:
* JSON payload values that the component reads are either strings or numbers;
  they are modelled by `JVal`, payloads by association lists.
* Python `round(x, n)` is modelled as exact round-half-to-even on rationals.
* A Python exception raised while a method mutates state in place is modelled
  by `Except`: the `error` branch carries the state as mutated so far.
* Wall-clock time is measured in minutes as a natural number; the
  unavailability tracker keeps the deadline `now + 150`.
-/

namespace XiaomiAqara

/-- A JSON scalar value as read by the component: a string or a number. -/
inductive JVal where
  | str (s : String)
  | num (q : ℚ)
deriving DecidableEq

/-- A push payload: the decoded JSON object, as an association list. -/
abbrev Payload := List (String × JVal)

/-- Python `int(x)` truncates a number toward zero. -/
def truncInt (q : ℚ) : ℤ :=
  if 0 ≤ q then ⌊q⌋ else ⌈q⌉

/-- Python `int(x)` on a payload value: numbers are truncated toward zero,
strings are parsed as integers (`none` models the raised `ValueError`). -/
def pyInt : JVal → Option ℤ
  | .num q => some (truncInt q)
  | .str s => s.toInt?

/-- Python `float(x)` on a payload value. Gateway payloads carry numeric
values or integer strings for the power fields, so integer-string parsing
suffices; `none` models the raised `ValueError`. -/
def pyFloat : JVal → Option ℚ
  | .num q => some q
  | .str s => (s.toInt?).map fun n => (n : ℚ)

/-- Round-half-to-even to an integer, the rounding mode of Python `round`. -/
def roundHalfEven (q : ℚ) : ℤ :=
  if q - ⌊q⌋ < 1/2 then ⌊q⌋
  else if 1/2 < q - ⌊q⌋ then ⌊q⌋ + 1
  else if ⌊q⌋ % 2 = 0 then ⌊q⌋ else ⌊q⌋ + 1

/-- Python `round(q, n)`: round to `n` decimal places, ties to even. -/
def roundTo (n : ℕ) (q : ℚ) : ℚ :=
  (roundHalfEven (q * 10 ^ n) : ℚ) / 10 ^ n

/-- The state of a generic switch sub-device entity
(`XiaomiDevice` + `XiaomiGenericSwitch` fields relevant to push handling).
`deadline = some t` models the pending unavailability tracker firing at `t`. -/
structure SwState where
  state : Option Bool
  isAvailable : Bool
  deadline : Option ℕ
  inUse : Option ℤ
  loadPower : Option ℚ
  powerConsumed : Option ℚ
  attrVoltage : Option ℚ
  attrBattery : Option ℚ
deriving DecidableEq

/-- `TIME_TILL_UNAVAILABLE = timedelta(minutes=150)`. -/
def TIME_TILL_UNAVAILABLE : ℕ := 150

/-- `XiaomiDevice._async_track_unavailable`: cancel the pending tracker,
re-arm it at `now + 150` minutes, and if the device was unavailable flip
it back to available and report `true`. -/
def track_unavailable (now : ℕ) (s : SwState) : Bool × SwState :=
  let s' := { s with deadline := some (now + TIME_TILL_UNAVAILABLE) }
  if s.isAvailable then (false, s')
  else (true, { s' with isAvailable := true })

/-- `XiaomiDevice._async_set_unavailable`: the tracker fires. -/
def set_unavailable (s : SwState) : SwState :=
  { s with deadline := none, isAvailable := false }

/-- The key-name selection of `XiaomiDevice.parse_voltage`:
`"voltage"` if present, else `"battery_voltage"`. -/
def voltage_value (data : Payload) : Option JVal :=
  match data.lookup "voltage" with
  | some v => some v
  | none => data.lookup "battery_voltage"

/-- `XiaomiDevice.parse_voltage`. Returns `false` and leaves the state
untouched when no voltage key is present; otherwise stores
`round(voltage / 1000.0, 2)` as the voltage attribute and the clamped
linear percentage `round(((voltage - 2800) / (3300 - 2800)) * 100, 1)`
as the battery level, returning `true`. A non-numeric voltage value
raises (`TypeError` on `voltage / 1000.0`) before any mutation. -/
def parse_voltage (data : Payload) (s : SwState) : Except SwState (Bool × SwState) :=
  match voltage_value data with
  | none => .ok (false, s)
  | some (.str _) => .error s
  | some (.num voltage) =>
    let max_volt : ℚ := 3300
    let min_volt : ℚ := 2800
    let s := { s with attrVoltage := some (roundTo 2 (voltage / 1000)) }
    let voltage := min voltage max_volt
    let voltage := max voltage min_volt
    let percent := ((voltage - min_volt) / (max_volt - min_volt)) * 100
    .ok (true, { s with attrBattery := some (roundTo 1 percent) })

/-- The battery-percentage map of `parse_voltage` in isolation:
clamp the millivolt reading into `[2800, 3300]`, map linearly to
`[0, 100]` and round to one decimal place. -/
def battery_percent (v : ℚ) : ℚ :=
  let voltage := min v 3300
  let voltage := max voltage 2800
  roundTo 1 (((voltage - 2800) / (3300 - 2800)) * 100)

/-- `XiaomiGenericSwitch.parse_data`, step 1: the `inuse` field.
`self._in_use = int(data[IN_USE])`, and when it is zero the cached load
power is zeroed too. `int()` on a non-numeric string raises. -/
def pd_inuse (data : Payload) (s : SwState) : Except SwState SwState :=
  match data.lookup "inuse" with
  | none => .ok s
  | some v =>
    match pyInt v with
    | none => .error s
    | some n =>
      .ok { s with inUse := some n
                   loadPower := if n = 0 then some 0 else s.loadPower }

/-- `XiaomiGenericSwitch.parse_data`, step 2: the first present key among
`power_consumed` and `energy_consumed` sets `self._power_consumed` to
`round(float(value), 2)`. -/
def pd_power (data : Payload) (s : SwState) : Except SwState SwState :=
  match (match data.lookup "power_consumed" with
         | some v => some v
         | none => data.lookup "energy_consumed") with
  | none => .ok s
  | some v =>
    match pyFloat v with
    | none => .error s
    | some q => .ok { s with powerConsumed := some (roundTo 2 q) }

/-- `XiaomiGenericSwitch.parse_data`, step 3: the `load_power` field sets
`self._load_power` to `round(float(value), 2)`. -/
def pd_load (data : Payload) (s : SwState) : Except SwState SwState :=
  match data.lookup "load_power" with
  | none => .ok s
  | some v =>
    match pyFloat v with
    | none => .error s
    | some q => .ok { s with loadPower := some (roundTo 2 q) }

/-- `XiaomiGenericSwitch.parse_data`, final step: the value under the
entity's data key. Anything other than the strings `"on"`/`"off"` is
ignored (`false`), an unchanged on/off state reports `false`, and only a
genuinely new state is stored and reported as `true`. -/
def pd_state (dataKey : String) (data : Payload) (s : SwState) : Bool × SwState :=
  match data.lookup dataKey with
  | none => (false, s)
  | some v =>
    if v = .str "on" ∨ v = .str "off" then
      let st : Bool := v = JVal.str "on"
      if s.state = some st then (false, s)
      else (true, { s with state := some st })
    else (false, s)

/-- `XiaomiGenericSwitch.parse_data`: the three attribute steps run in
order (a raise aborts the rest), followed by the on/off decoding; the
boolean is whether a functional field changed. -/
def parse_data (dataKey : String) (data : Payload) (s : SwState) :
    Except SwState (Bool × SwState) :=
  match pd_inuse data s with
  | .error e => .error e
  | .ok s =>
    match pd_power data s with
    | .error e => .error e
    | .ok s =>
      match pd_load data s with
      | .error e => .error e
      | .ok s => .ok (pd_state dataKey data s)

/-- `XiaomiDevice.push_data`: re-arm the unavailability tracker, decode the
functional fields and the voltage fields, and schedule a state update when
any of the three reported a change. The first component is `some changed`
on normal termination and `none` when a decoder raised (in which case no
update is scheduled but all mutations made before the raise persist). -/
def push_data (dataKey : String) (now : ℕ) (data : Payload) (s : SwState) :
    Option Bool × SwState :=
  let armed := track_unavailable now s
  match parse_data dataKey data armed.2 with
  | .error sE => (none, sE)
  | .ok (is_data, s2) =>
    match parse_voltage data s2 with
    | .error sE => (none, sE)
    | .ok (is_voltage, s3) =>
      (some (is_data || is_voltage || armed.1), s3)

/-- `XiaomiGenericSwitch.turn_on`: write `{data_key: "on"}` to the hub;
only on a successful write is the cached state set and an update scheduled.
The argument is the boolean returned by `write_to_hub`; the second
component of the result is whether an update was scheduled. -/
def switch_turn_on (writeOk : Bool) (s : SwState) : SwState × Bool :=
  if writeOk then ({ s with state := some true }, true) else (s, false)

/-- `XiaomiGenericSwitch.turn_off`: write `{data_key: "off"}` to the hub;
only on a successful write is the cached state cleared and an update
scheduled. -/
def switch_turn_off (writeOk : Bool) (s : SwState) : SwState × Bool :=
  if writeOk then ({ s with state := some false }, true) else (s, false)

/-- The state of the gateway radio switch (`XiaomiGatewayRadioSwitch`). -/
structure RadioState where
  state : Option Bool
  volume : Option ℚ
deriving DecidableEq

/-- `XiaomiGatewayRadioSwitch.turn_on`: issue `play_fm ["on"]` over the
miio RPC channel; the state becomes on only when the response contains
the `'ok'` acknowledgement. The argument is the RPC response. -/
def radio_turn_on (resp : List String) (s : RadioState) : RadioState :=
  if "ok" ∈ resp then { s with state := some true } else s

/-- `XiaomiGatewayRadioSwitch.turn_off`: issue `play_fm ["off"]`; the state
becomes off only when the response contains the `'ok'` acknowledgement. -/
def radio_turn_off (resp : List String) (s : RadioState) : RadioState :=
  if "ok" ∈ resp then { s with state := some false } else s

/-- A raw gateway entry of the YAML configuration before validation:
`none` means the key is absent from the mapping. -/
structure RawGatewayConf where
  key : Option String
  host : Option String
  port : Option ℕ
  disable : Option Bool
  mac : Option String
  miio_token : Option String
deriving DecidableEq

/-- A validated gateway entry before `_fix_conf_defaults`
(`port` and `disable` have received their schema defaults). -/
structure PreConf where
  key : Option String
  host : Option String
  port : ℕ
  disable : Bool
  mac : Option String
  miio_token : Option String
deriving DecidableEq

/-- A gateway entry as seen by `discover_gateways`, i.e. after
`_fix_conf_defaults` renamed `mac` to `sid` and popped `port` when no
host is configured. -/
structure GatewayConf where
  key : Option String
  host : Option String
  port : Option ℕ
  disable : Bool
  sid : Option String
  miio_token : Option String
deriving DecidableEq

/-- ASCII lower-casing of one character (sufficient for the hex-and-colon
mac strings this validator sees). -/
def lowerChar (c : Char) : Char :=
  if 'A' ≤ c ∧ c ≤ 'Z' then Char.ofNat (c.toNat + 32) else c

/-- The `GW_MAC` validator: coerce to string, strip the colons
(`value.replace(":", "")` removes every colon), lower-case, and require
exactly 12 characters. -/
def gw_mac (s : String) : Option String :=
  let v := ((s.toList.filter fun c => c ≠ ':').map lowerChar).asString
  if v.length = 12 then some v else none

/-- `GATEWAY_CONFIG` plus the `mac` field: validate one raw entry.
`key` must be exactly 16 characters when present, `port` defaults to 9898
and must be a valid TCP port, `disable` defaults to `False`, and `mac` is
validated by `GW_MAC` (required when `macRequired`, optional otherwise). -/
def validate_entry (macRequired : Bool) (e : RawGatewayConf) : Option PreConf :=
  match (match e.key with
         | none => some none
         | some k => if k.length = 16 then some (some k) else none) with
  | none => none
  | some key =>
    let port := e.port.getD 9898
    if 1 ≤ port ∧ port ≤ 65535 then
      match (match e.mac with
             | none => if macRequired then none else some none
             | some m => (gw_mac m).map some) with
      | none => none
      | some mac =>
        some { key := key, host := e.host, port := port,
               disable := e.disable.getD false, mac := mac,
               miio_token := e.miio_token }
    else none

/-- Validate every entry of the list (a voluptuous `[schema]` validator). -/
def validate_list (macRequired : Bool) : List RawGatewayConf → Option (List PreConf)
  | [] => some []
  | e :: rest =>
    match validate_entry macRequired e, validate_list macRequired rest with
    | some v, some vs => some (v :: vs)
    | _, _ => none

/-- `_fix_conf_defaults`: rename `mac` to `sid` and pop `port` when no host
is configured. -/
def fix_conf_defaults (e : PreConf) : GatewayConf :=
  { key := e.key, host := e.host,
    port := if e.host = none then none else some e.port,
    disable := e.disable, sid := e.mac, miio_token := e.miio_token }

/-- The `CONF_GATEWAYS` part of `CONFIG_SCHEMA`:
`vol.Any(vol.All([GATEWAY_CONFIG_MAC_OPTIONAL], vol.Length(max=1)),
vol.All([GATEWAY_CONFIG_MAC_REQUIRED], vol.Length(min=2)))` followed by
`[_fix_conf_defaults]`. -/
def validate_gateways (entries : List RawGatewayConf) : Option (List GatewayConf) :=
  let branch1 :=
    match validate_list false entries with
    | some l => if entries.length ≤ 1 then some l else none
    | none => none
  let branch2 :=
    match validate_list true entries with
    | some l => if 2 ≤ entries.length then some l else none
    | none => none
  ((branch1.orElse fun _ => branch2).map fun l => l.map fix_conf_defaults)

/-- A gateway session object as far as discovery configures it
(the constructor arguments of `XiaomiMiioGateway` that the claims track;
the discovery-retry count and interface are session parameters shared by
all hubs and are not modelled). -/
structure Hub where
  ip : String
  port : ℕ
  sid : String
  key : Option String
  proto : Option String
  miio_token : Option String
deriving DecidableEq

/-- Python dict assignment `m[k] = v` on an association list. -/
def setAssoc (m : List (String × Hub)) (k : String) (v : Hub) : List (String × Hub) :=
  if (m.lookup k).isSome then m.map fun p => if p.1 = k then (k, v) else p
  else m ++ [(k, v)]

/-- The static phase of `XiaomiMiioGatewayDiscovery.discover_gateways`
(the `for gateway in self._gateways_config` loop before the whois
broadcast). `resolve` models `socket.gethostbyname` (`none` is the raised
`OSError`). An entry is processed only when `host`, `port` and `sid` are
all present and truthy; a disabled entry records its IP in the disabled
list; otherwise a hub is created at the resolved IP. The config carries
no `proto` key, so `gateway.get('proto')` is always `None`. -/
def static_discover (resolve : String → Option String) :
    List GatewayConf → List (String × Hub) × List String →
    List (String × Hub) × List String
  | [], acc => acc
  | g :: rest, (gateways, disabled) =>
    match g.host, g.port, g.sid with
    | some host, some port, some sid =>
      if host = "" ∨ port = 0 ∨ sid = "" then
        static_discover resolve rest (gateways, disabled)
      else
        match resolve host with
        | none => static_discover resolve rest (gateways, disabled)
        | some ip =>
          if g.disable then
            static_discover resolve rest (gateways, disabled ++ [ip])
          else
            static_discover resolve rest
              (setAssoc gateways ip
                { ip := ip, port := port, sid := sid, key := g.key,
                  proto := none, miio_token := g.miio_token }, disabled)
    | _, _, _ => static_discover resolve rest (gateways, disabled)

/-- A parsed `iam` discovery response. -/
structure IamResp where
  sid : String
  model : String
  port : ℕ
  proto_version : Option String
deriving DecidableEq

/-- `if sid and sid == resp['sid'] and gateway.get('disable')`: a truthy,
exactly matching sid on an entry marked disabled. -/
def disable_hit (respSid : String) (g : GatewayConf) : Bool :=
  match g.sid with
  | some s => s ≠ "" && s = respSid && g.disable
  | none => false

/-- One iteration of the matching loop of the `iam` branch:
`gateway_key` is overwritten by any entry whose `sid` is absent or equals
the response sid, and `disabled` latches on a disabled exact match. -/
def iam_step (respSid : String) (acc : Option String × Bool) (g : GatewayConf) :
    Option String × Bool :=
  (if g.sid = none ∨ g.sid = some respSid then g.key else acc.1,
   acc.2 || disable_hit respSid g)

/-- The matching loop of the `iam` branch of `discover_gateways`. -/
def iam_match (configs : List GatewayConf) (respSid : String) :
    Option String × Bool :=
  configs.foldl (iam_step respSid) (none, false)

/-- The last entry of the config list whose `sid` is absent or equals the
response sid — the entry whose key the matching loop ends up keeping. -/
def lastMatch (respSid : String) : List GatewayConf → Option GatewayConf
  | [] => none
  | g :: rest =>
    match lastMatch respSid rest with
    | some m => some m
    | none => if g.sid = none ∨ g.sid = some respSid then some g else none

/-- The body of the `iam` receive loop of `discover_gateways` for one
datagram from `ip`, after JSON parsing and the `cmd` check. `models` is
the external `GATEWAY_MODELS` allowlist. A known or disabled IP and a
non-gateway model are skipped (`continue`). Otherwise the matching loop
runs; a disabled match records the IP, and otherwise a hub is created
whose `miio_token` is read from the loop variable `gateway`, i.e. from
the LAST config entry — `none` as a whole models the `NameError` raised
there when the config list is empty. -/
def iam_process (models : List String) (configs : List GatewayConf)
    (resp : IamResp) (ip : String)
    (gateways : List (String × Hub)) (disabled : List String) :
    Option (List (String × Hub) × List String) :=
  if (gateways.lookup ip).isSome ∨ ip ∈ disabled then some (gateways, disabled)
  else if resp.model ∉ models then some (gateways, disabled)
  else
    let m := iam_match configs resp.sid
    if m.2 then some (gateways, disabled ++ [ip])
    else
      match configs.getLast? with
      | none => none
      | some last =>
        some (setAssoc gateways ip
          { ip := ip, port := resp.port, sid := resp.sid, key := m.1,
            proto := resp.proto_version, miio_token := last.miio_token },
          disabled)

/-! ### Proof infrastructure -/

/-- The device state carried by an `Except` outcome of a decoder
(the mutated-so-far state on an exception, the final state otherwise). -/
def exSt : Except SwState (Bool × SwState) → SwState
  | .ok (_, s) => s
  | .error s => s

/-- The state carried by an intermediate decoding step. -/
def exStS : Except SwState SwState → SwState
  | .ok s => s
  | .error s => s

/-- Whether an intermediate decoding step terminated normally. -/
def exOkS : Except SwState SwState → Bool
  | .ok _ => true
  | .error _ => false

/-- The on/off state `XiaomiGenericSwitch.parse_data` leaves behind:
a valid `"on"`/`"off"` value under the data key overwrites the old state,
anything else leaves it alone. -/
def stateTarget (dataKey : String) (data : Payload) (old : Option Bool) : Option Bool :=
  match data.lookup dataKey with
  | some v =>
    if v = .str "on" ∨ v = .str "off" then some (v = JVal.str "on") else old
  | none => old

/-- A fresh, available sample device state. -/
def sampleState : SwState :=
  { state := none, isAvailable := true, deadline := none, inUse := none,
    loadPower := none, powerConsumed := none, attrVoltage := none,
    attrBattery := none }

/-! ### Claim theorems -/

/-- C1: for every push payload containing a voltage field (under either
key name), `parse_voltage` reports `true`, sets the voltage attribute to
`round(raw_millivolts / 1000, 2)` and the battery level to
`round(((clamp(raw, 2800, 3300) - 2800) / (3300 - 2800)) * 100, 1)`;
for payloads with no voltage field it reports `false` and leaves the
state, in particular both attributes, unchanged. -/
theorem claim_C1_parse_voltage (data : Payload) (s : SwState) :
    (∀ v : ℚ, voltage_value data = some (.num v) →
      parse_voltage data s = .ok (true,
        { s with
          attrVoltage := some (roundTo 2 (v / 1000)),
          attrBattery :=
            some (roundTo 1 ((max (min v 3300) 2800 - 2800) / (3300 - 2800) * 100)) })) ∧
    (voltage_value data = none → parse_voltage data s = .ok (false, s)) := by
  constructor
  · intro v h
    simp [parse_voltage, h]
  · intro h
    simp [parse_voltage, h]

/-- Witness for C1 at a payload carrying 3000 mV and at an empty payload. -/
theorem claim_C1_witness :
    parse_voltage [("voltage", JVal.num 3000)] sampleState = .ok (true,
      { sampleState with
        attrVoltage := some (roundTo 2 (3000 / 1000)),
        attrBattery :=
          some (roundTo 1 ((max (min (3000:ℚ) 3300) 2800 - 2800) / (3300 - 2800) * 100)) }) ∧
    parse_voltage [("status", JVal.str "on")] sampleState = .ok (false, sampleState) :=
  ⟨(claim_C1_parse_voltage [("voltage", JVal.num 3000)] sampleState).1 3000 (by decide),
   (claim_C1_parse_voltage [("status", JVal.str "on")] sampleState).2 (by decide)⟩

/-- C9: for the radio switch's `turn_on`/`turn_off` over the miio RPC
channel, a response lacking the `'ok'` acknowledgement leaves the state
(entirely) unchanged, and a response containing it is the only way the
on/off state changes. -/
theorem claim_C9_radio_ack (resp : List String) (s : RadioState) :
    ("ok" ∉ resp → radio_turn_on resp s = s ∧ radio_turn_off resp s = s) ∧
    ("ok" ∈ resp → (radio_turn_on resp s).state = some true ∧
      (radio_turn_off resp s).state = some false) := by
  constructor
  · intro h
    simp [radio_turn_on, radio_turn_off, h]
  · intro h
    simp [radio_turn_on, radio_turn_off, h]

/-- Witness for C9 at a bare error response and at an `['ok']` response. -/
theorem claim_C9_witness :
    (radio_turn_on ["error"] { state := none, volume := none } =
      { state := none, volume := none } ∧
     radio_turn_off ["error"] { state := none, volume := none } =
      { state := none, volume := none }) ∧
    ((radio_turn_on ["ok"] { state := none, volume := none }).state = some true ∧
     (radio_turn_off ["ok"] { state := none, volume := none }).state = some false) :=
  ⟨(claim_C9_radio_ack ["error"] { state := none, volume := none }).1 (by decide),
   (claim_C9_radio_ack ["ok"] { state := none, volume := none }).2 (by decide)⟩

/-- C10: `XiaomiGenericSwitch.turn_on`/`turn_off` leave the cached state
and every attribute untouched and schedule no update when the hub write
fails, and mutate only the on/off state (scheduling an update) when the
write succeeds. -/
theorem claim_C10_switch_frame (s : SwState) :
    switch_turn_on false s = (s, false) ∧
    switch_turn_off false s = (s, false) ∧
    switch_turn_on true s = ({ s with state := some true }, true) ∧
    switch_turn_off true s = ({ s with state := some false }, true) := by
  simp [switch_turn_on, switch_turn_off]

/-- Rounding half-to-even fixes every integer. -/
theorem roundHalfEven_intCast (n : ℤ) : roundHalfEven (n : ℚ) = n := by
  simp [roundHalfEven]

/-- On integer millivolt readings the one-decimal rounding of
`battery_percent` is exact: the percentage is the integer
`(clamp(v) - 2800) * 2` divided by ten. -/
theorem battery_percent_int (v : ℤ) :
    battery_percent (v : ℚ) = ((max (min v 3300) 2800 - 2800) * 2 : ℤ) / 10 := by
  have hclamp : (max (min (v:ℚ) 3300) 2800) = ((max (min v 3300) 2800 : ℤ) : ℚ) := by
    push_cast
    ring_nf
  have harg :
      (max (min (v:ℚ) 3300) 2800 - 2800) / (3300 - 2800) * 100 * 10 ^ 1 =
        (((max (min v 3300) 2800 - 2800) * 2 : ℤ) : ℚ) := by
    rw [hclamp]
    push_cast
    ring
  simp only [battery_percent, roundTo]
  rw [harg, roundHalfEven_intCast]
  norm_num

/-- C7: on integer millivolt readings, the battery percentage computed by
`parse_voltage` is monotonically non-decreasing, equals exactly 0 for
every reading at or below 2800 mV, and equals exactly 100 for every
reading at or above 3300 mV. -/
theorem claim_C7_battery_monotone (v₁ v₂ : ℤ) :
    (v₁ ≤ v₂ → battery_percent (v₁ : ℚ) ≤ battery_percent (v₂ : ℚ)) ∧
    (v₁ ≤ 2800 → battery_percent (v₁ : ℚ) = 0) ∧
    (3300 ≤ v₁ → battery_percent (v₁ : ℚ) = 100) := by
  refine ⟨fun h => ?_, fun h => ?_, fun h => ?_⟩
  · rw [battery_percent_int, battery_percent_int]
    have hc : max (min v₁ 3300) 2800 ≤ max (min v₂ 3300) 2800 :=
      max_le_max_right 2800 (min_le_min_right 3300 h)
    have h2 : ((max (min v₁ 3300) 2800 - 2800) * 2 : ℤ) ≤
        ((max (min v₂ 3300) 2800 - 2800) * 2 : ℤ) := by omega
    have h3 : (((max (min v₁ 3300) 2800 - 2800) * 2 : ℤ) : ℚ) ≤
        (((max (min v₂ 3300) 2800 - 2800) * 2 : ℤ) : ℚ) := by exact_mod_cast h2
    exact div_le_div_of_nonneg_right h3 (by norm_num) |>.trans_eq rfl
  · rw [battery_percent_int]
    have hc : max (min v₁ 3300) 2800 = 2800 := by omega
    rw [hc]
    norm_num
  · rw [battery_percent_int]
    have hc : max (min v₁ 3300) 2800 = 3300 := by omega
    rw [hc]
    norm_num

/-- Witness for C7 at the readings 2700 mV and 3400 mV. -/
theorem claim_C7_witness :
    battery_percent ((2700 : ℤ) : ℚ) ≤ battery_percent ((3400 : ℤ) : ℚ) ∧
    battery_percent ((2700 : ℤ) : ℚ) = 0 ∧
    battery_percent ((3400 : ℤ) : ℚ) = 100 :=
  ⟨(claim_C7_battery_monotone 2700 3400).1 (by decide),
   (claim_C7_battery_monotone 2700 3400).2.1 (by decide),
   (claim_C7_battery_monotone 3400 3400).2.2 (by decide)⟩

/-- The attribute steps of `parse_data` never touch the on/off state, the
availability flag or the unavailability deadline (`pd_inuse`). -/
theorem pd_inuse_frame (data : Payload) (s : SwState) :
    (exStS (pd_inuse data s)).state = s.state ∧
    (exStS (pd_inuse data s)).isAvailable = s.isAvailable ∧
    (exStS (pd_inuse data s)).deadline = s.deadline := by
  unfold pd_inuse
  cases data.lookup "inuse" with
  | none => simp [exStS]
  | some v => cases hv : pyInt v <;> simp [exStS, hv]

/-- The attribute steps of `parse_data` never touch the on/off state, the
availability flag or the unavailability deadline (`pd_power`). -/
theorem pd_power_frame (data : Payload) (s : SwState) :
    (exStS (pd_power data s)).state = s.state ∧
    (exStS (pd_power data s)).isAvailable = s.isAvailable ∧
    (exStS (pd_power data s)).deadline = s.deadline := by
  unfold pd_power
  cases (match data.lookup "power_consumed" with
         | some v => some v
         | none => data.lookup "energy_consumed") with
  | none => simp [exStS]
  | some v => cases hv : pyFloat v <;> simp [exStS, hv]

/-- The attribute steps of `parse_data` never touch the on/off state, the
availability flag or the unavailability deadline (`pd_load`). -/
theorem pd_load_frame (data : Payload) (s : SwState) :
    (exStS (pd_load data s)).state = s.state ∧
    (exStS (pd_load data s)).isAvailable = s.isAvailable ∧
    (exStS (pd_load data s)).deadline = s.deadline := by
  unfold pd_load
  cases data.lookup "load_power" with
  | none => simp [exStS]
  | some v => cases hv : pyFloat v <;> simp [exStS, hv]

/-- `pd_state` sets the on/off state to `stateTarget` and touches nothing
else that availability tracking reads. -/
theorem pd_state_spec (dataKey : String) (data : Payload) (s : SwState) :
    (pd_state dataKey data s).2.state = stateTarget dataKey data s.state ∧
    (pd_state dataKey data s).2.isAvailable = s.isAvailable ∧
    (pd_state dataKey data s).2.deadline = s.deadline := by
  unfold pd_state stateTarget
  cases data.lookup dataKey with
  | none => simp
  | some v =>
    by_cases hv : v = JVal.str "on" ∨ v = JVal.str "off"
    · simp only [hv, if_true]
      by_cases hs : s.state = some (decide (v = JVal.str "on"))
      · simp [hs]
      · simp [hs]
    · simp [hv]

/-- A second decode of the same payload reports no change: when the old
state already is the target, `pd_state` reports `false` and returns the
state unchanged. -/
theorem pd_state_fixed (dataKey : String) (data : Payload) (s : SwState)
    (old : Option Bool) (h : s.state = stateTarget dataKey data old) :
    pd_state dataKey data s = (false, s) := by
  unfold pd_state
  unfold stateTarget at h
  cases hl : data.lookup dataKey with
  | none => simp
  | some v =>
    rw [hl] at h
    by_cases hv : v = JVal.str "on" ∨ v = JVal.str "off"
    · simp only [hv, if_true] at h ⊢
      simp [h]
    · simp [hv]

/-- Whether `pd_inuse` raises depends only on the payload. -/
theorem pd_inuse_ok (data : Payload) (s s' : SwState) :
    exOkS (pd_inuse data s) = exOkS (pd_inuse data s') := by
  unfold pd_inuse
  cases data.lookup "inuse" with
  | none => simp [exOkS]
  | some v => cases hv : pyInt v <;> simp [exOkS, hv]

/-- Whether `pd_power` raises depends only on the payload. -/
theorem pd_power_ok (data : Payload) (s s' : SwState) :
    exOkS (pd_power data s) = exOkS (pd_power data s') := by
  unfold pd_power
  cases (match data.lookup "power_consumed" with
         | some v => some v
         | none => data.lookup "energy_consumed") with
  | none => simp [exOkS]
  | some v => cases hv : pyFloat v <;> simp [exOkS, hv]

/-- Whether `pd_load` raises depends only on the payload. -/
theorem pd_load_ok (data : Payload) (s s' : SwState) :
    exOkS (pd_load data s) = exOkS (pd_load data s') := by
  unfold pd_load
  cases data.lookup "load_power" with
  | none => simp [exOkS]
  | some v => cases hv : pyFloat v <;> simp [exOkS, hv]

/-- `parse_data` never touches the availability flag or the deadline, in
its normal as well as its exceptional outcome, and on normal termination
it leaves the on/off state at `stateTarget`. -/
theorem parse_data_frame (dataKey : String) (data : Payload) (s : SwState) :
    (exSt (parse_data dataKey data s)).isAvailable = s.isAvailable ∧
    (exSt (parse_data dataKey data s)).deadline = s.deadline ∧
    (∀ b s', parse_data dataKey data s = .ok (b, s') →
      s'.state = stateTarget dataKey data s.state) := by
  unfold parse_data
  cases h1 : pd_inuse data s with
  | error e1 =>
    have f1 := pd_inuse_frame data s
    rw [h1] at f1
    simp only [exStS] at f1
    simp [exSt, f1]
  | ok s1 =>
    have f1 := pd_inuse_frame data s
    rw [h1] at f1
    simp only [exStS] at f1
    cases h2 : pd_power data s1 with
    | error e2 =>
      have f2 := pd_power_frame data s1
      rw [h2] at f2
      simp only [exStS] at f2
      simp [exSt, h2, f1, f2]
    | ok s2 =>
      have f2 := pd_power_frame data s1
      rw [h2] at f2
      simp only [exStS] at f2
      cases h3 : pd_load data s2 with
      | error e3 =>
        have f3 := pd_load_frame data s2
        rw [h3] at f3
        simp only [exStS] at f3
        simp [exSt, h2, h3, f1, f2, f3]
      | ok s3 =>
        have f3 := pd_load_frame data s2
        rw [h3] at f3
        simp only [exStS] at f3
        have f4 := pd_state_spec dataKey data s3
        refine ⟨?_, ?_, ?_⟩
        · simp [exSt, h2, h3, f4.2.1, f3.2.1, f2.2.1, f1.2.1]
        · simp [exSt, h2, h3, f4.2.2, f3.2.2, f2.2.2, f1.2.2]
        · intro b s' hok
          simp only [h2, h3, Except.ok.injEq] at hok
          have hs' : s' = (pd_state dataKey data s3).2 := by
            rw [hok]
          rw [hs', f4.1, f3.1, f2.1, f1.1]

/-- `parse_voltage` never touches the on/off state, the availability flag
or the deadline, in its normal as well as its exceptional outcome. -/
theorem parse_voltage_frame (data : Payload) (s : SwState) :
    (exSt (parse_voltage data s)).state = s.state ∧
    (exSt (parse_voltage data s)).isAvailable = s.isAvailable ∧
    (exSt (parse_voltage data s)).deadline = s.deadline := by
  unfold parse_voltage
  cases hv : voltage_value data with
  | none => simp [exSt]
  | some v => cases v <;> simp [exSt]

/-- Without a voltage key under either name, `parse_voltage` is a no-op
reporting `false`. -/
theorem parse_voltage_none (data : Payload) (s : SwState)
    (h1 : data.lookup "voltage" = none)
    (h2 : data.lookup "battery_voltage" = none) :
    parse_voltage data s = .ok (false, s) := by
  simp [parse_voltage, voltage_value, h1, h2]

/-- Whether a full decoding run raises. -/
def exOk : Except SwState (Bool × SwState) → Bool
  | .ok _ => true
  | .error _ => false

/-- Whether `parse_data` raises depends only on the payload, never on the
device state. -/
theorem parse_data_ok (dataKey : String) (data : Payload) (s s' : SwState) :
    exOk (parse_data dataKey data s) = exOk (parse_data dataKey data s') := by
  unfold parse_data
  have o1 := pd_inuse_ok data s s'
  cases h1 : pd_inuse data s with
  | error e1 =>
    cases h1' : pd_inuse data s' with
    | error e1' => simp [exOk]
    | ok t1' => rw [h1, h1'] at o1; simp [exOkS] at o1
  | ok t1 =>
    cases h1' : pd_inuse data s' with
    | error e1' => rw [h1, h1'] at o1; simp [exOkS] at o1
    | ok t1' =>
      have o2 := pd_power_ok data t1 t1'
      cases h2 : pd_power data t1 with
      | error e2 =>
        cases h2' : pd_power data t1' with
        | error e2' => simp [exOk, h2, h2']
        | ok t2' => rw [h2, h2'] at o2; simp [exOkS] at o2
      | ok t2 =>
        cases h2' : pd_power data t1' with
        | error e2' => rw [h2, h2'] at o2; simp [exOkS] at o2
        | ok t2' =>
          have o3 := pd_load_ok data t2 t2'
          cases h3 : pd_load data t2 with
          | error e3 =>
            cases h3' : pd_load data t2' with
            | error e3' => simp [exOk, h2, h2', h3, h3']
            | ok t3' => rw [h3, h3'] at o3; simp [exOkS] at o3
          | ok t3 =>
            cases h3' : pd_load data t2' with
            | error e3' => rw [h3, h3'] at o3; simp [exOkS] at o3
            | ok t3' => simp [exOk, h2, h2', h3, h3']

/-- `_async_track_unavailable` re-arms the deadline, always leaves the
device available, reports exactly whether it had been unavailable, and
touches nothing else. -/
theorem track_unavailable_spec (now : ℕ) (s : SwState) :
    (track_unavailable now s).2.deadline = some (now + TIME_TILL_UNAVAILABLE) ∧
    (track_unavailable now s).2.isAvailable = true ∧
    (track_unavailable now s).1 = !s.isAvailable ∧
    (track_unavailable now s).2.state = s.state := by
  cases h : s.isAvailable <;> simp [track_unavailable, h]

/-- `push_data` always leaves the deadline at `now + 150` minutes and the
device available, raise or no raise. -/
theorem push_data_rearm (dataKey : String) (now : ℕ) (data : Payload)
    (s : SwState) :
    (push_data dataKey now data s).2.deadline =
      some (now + TIME_TILL_UNAVAILABLE) ∧
    (push_data dataKey now data s).2.isAvailable = true := by
  unfold push_data
  have ht := track_unavailable_spec now s
  have hpf := parse_data_frame dataKey data (track_unavailable now s).2
  cases hp : parse_data dataKey data (track_unavailable now s).2 with
  | error e =>
    rw [hp] at hpf
    simp only [exSt] at hpf
    simp [hp, hpf.1, hpf.2.1, ht.1, ht.2.1]
  | ok p =>
    obtain ⟨b, s2⟩ := p
    rw [hp] at hpf
    simp only [exSt] at hpf
    have hvf := parse_voltage_frame data s2
    cases hv : parse_voltage data s2 with
    | error e =>
      rw [hv] at hvf
      simp only [exSt] at hvf
      simp [hp, hv, hvf.2.1, hvf.2.2, hpf.1, hpf.2.1, ht.1, ht.2.1]
    | ok q =>
      obtain ⟨b2, s3⟩ := q
      rw [hv] at hvf
      simp only [exSt] at hvf
      simp [hp, hv, hvf.2.1, hvf.2.2, hpf.1, hpf.2.1, ht.1, ht.2.1]

/-- C6: every received push re-arms the sub-device's unavailability
deadline to `now + 150` minutes; a push to a previously unavailable
sub-device flips it back to available, and whenever the handler reports a
result at all it reports `changed = true` (an update is scheduled), no
matter whether any payload field differs. -/
theorem claim_C6_availability (dataKey : String) (now : ℕ) (data : Payload)
    (s : SwState) :
    (push_data dataKey now data s).2.deadline =
      some (now + TIME_TILL_UNAVAILABLE) ∧
    (s.isAvailable = false →
      (push_data dataKey now data s).2.isAvailable = true ∧
      ∀ b, (push_data dataKey now data s).1 = some b → b = true) := by
  refine ⟨(push_data_rearm dataKey now data s).1, fun hun => ?_⟩
  refine ⟨(push_data_rearm dataKey now data s).2, fun b hb => ?_⟩
  have ht := track_unavailable_spec now s
  rw [hun] at ht
  unfold push_data at hb
  cases hp : parse_data dataKey data (track_unavailable now s).2 with
  | error e => simp only [hp] at hb; simp at hb
  | ok p =>
    obtain ⟨b1, s2⟩ := p
    simp only [hp] at hb
    cases hv : parse_voltage data s2 with
    | error e => simp only [hv] at hb; simp at hb
    | ok q =>
      obtain ⟨b2, s3⟩ := q
      simp only [hv, Option.some.injEq] at hb
      rw [← hb, ht.2.2.1]
      simp

/-- Decoding a payload from a state whose on/off state already is the
payload's target reports no functional change. -/
theorem parse_data_snd_false (dataKey : String) (data : Payload) (s : SwState)
    (old : Option Bool) (h : s.state = stateTarget dataKey data old) :
    ∀ b s', parse_data dataKey data s = .ok (b, s') → b = false := by
  intro b s' hok
  unfold parse_data at hok
  cases h1 : pd_inuse data s with
  | error e1 => rw [h1] at hok; exact Except.noConfusion hok
  | ok t1 =>
    have f1 := pd_inuse_frame data s
    rw [h1] at f1
    simp only [exStS] at f1
    simp only [h1] at hok
    cases h2 : pd_power data t1 with
    | error e2 => rw [h2] at hok; exact Except.noConfusion hok
    | ok t2 =>
      have f2 := pd_power_frame data t1
      rw [h2] at f2
      simp only [exStS] at f2
      simp only [h2] at hok
      cases h3 : pd_load data t2 with
      | error e3 => rw [h3] at hok; exact Except.noConfusion hok
      | ok t3 =>
        have f3 := pd_load_frame data t2
        rw [h3] at f3
        simp only [exStS] at f3
        simp only [h3, Except.ok.injEq] at hok
        have hfix : pd_state dataKey data t3 = (false, t3) :=
          pd_state_fixed dataKey data t3 old (by rw [f3.1, f2.1, f1.1, h])
        rw [hfix] at hok
        exact (Prod.mk.injEq _ _ _ _ ▸ hok).1.symm

/-- C2 (amended): for payloads carrying no voltage field, a second push
with identical payload data reports `changed = false` whenever it reports
at all, while still re-arming the availability deadline. (For payloads
with a voltage field the second call reports `changed = true`, because
`parse_voltage` reports the mere presence of the field; see the
counterexample.) -/
theorem claim_C2_amended (dataKey : String) (data : Payload) (s : SwState)
    (now₁ now₂ : ℕ)
    (hv1 : data.lookup "voltage" = none)
    (hv2 : data.lookup "battery_voltage" = none) :
    (push_data dataKey now₂ data (push_data dataKey now₁ data s).2).2.deadline =
      some (now₂ + TIME_TILL_UNAVAILABLE) ∧
    ∀ b, (push_data dataKey now₂ data (push_data dataKey now₁ data s).2).1 = some b →
      b = false := by
  refine ⟨(push_data_rearm dataKey now₂ data _).1, fun b hb => ?_⟩
  have havail := (push_data_rearm dataKey now₁ data s).2
  cases hp1 : parse_data dataKey data (track_unavailable now₁ s).2 with
  | error e1 =>
    have hs1 : (push_data dataKey now₁ data s).2 = e1 := by
      unfold push_data
      simp only [hp1]
    rw [hs1] at hb
    unfold push_data at hb
    cases hp2 : parse_data dataKey data (track_unavailable now₂ e1).2 with
    | error e2 => simp only [hp2] at hb; exact Option.noConfusion hb
    | ok p =>
      have hok12 := parse_data_ok dataKey data
        (track_unavailable now₂ e1).2 (track_unavailable now₁ s).2
      rw [hp2, hp1] at hok12
      simp [exOk] at hok12
  | ok q =>
    obtain ⟨c1, u2⟩ := q
    have hs1 : (push_data dataKey now₁ data s).2 = u2 := by
      unfold push_data
      simp only [hp1]
      rw [parse_voltage_none data u2 hv1 hv2]
    have hu2 := (parse_data_frame dataKey data (track_unavailable now₁ s).2).2.2 c1 u2 hp1
    have hu2avail : u2.isAvailable = true := by rw [← hs1]; exact havail
    rw [hs1] at hb
    have ht2 := track_unavailable_spec now₂ u2
    unfold push_data at hb
    cases hp2 : parse_data dataKey data (track_unavailable now₂ u2).2 with
    | error e2 => simp only [hp2] at hb; exact Option.noConfusion hb
    | ok p =>
      obtain ⟨b2, t2⟩ := p
      simp only [hp2] at hb
      rw [parse_voltage_none data t2 hv1 hv2] at hb
      simp only [Option.some.injEq] at hb
      have harm : (track_unavailable now₂ u2).1 = false := by
        rw [ht2.2.2.1, hu2avail]
        rfl
      have hb2 : b2 = false :=
        parse_data_snd_false dataKey data (track_unavailable now₂ u2).2
          (track_unavailable now₁ s).2.state
          (by rw [ht2.2.2.2, hu2]) b2 t2 hp2
      rw [← hb, hb2, harm]
      rfl

/-- Witness for C2 (amended) at a voltage-free on/off payload. -/
theorem claim_C2_witness :
    (push_data "status" 9 [("status", JVal.str "on")]
        (push_data "status" 2 [("status", JVal.str "on")] sampleState).2).2.deadline =
      some (9 + TIME_TILL_UNAVAILABLE) ∧
    ∀ b, (push_data "status" 9 [("status", JVal.str "on")]
        (push_data "status" 2 [("status", JVal.str "on")] sampleState).2).1 = some b →
      b = false :=
  claim_C2_amended "status" [("status", JVal.str "on")] sampleState 2 9
    (by decide) (by decide)

/-- Counterexample to C2 as stated: for the identical payload
`{"status": "on", "voltage": 3000}` the second push still reports
`changed = true` (an update is scheduled), because `parse_voltage`
reports `true` for the mere presence of a voltage field. -/
theorem claim_C2_counterexample :
    (push_data "status" 10 [("status", JVal.str "on"), ("voltage", JVal.num 3000)]
        (push_data "status" 0 [("status", JVal.str "on"), ("voltage", JVal.num 3000)]
          sampleState).2).1 = some true ∧
    (push_data "status" 10 [("status", JVal.str "on"), ("voltage", JVal.num 3000)]
        (push_data "status" 0 [("status", JVal.str "on"), ("voltage", JVal.num 3000)]
          sampleState).2).1 ≠ some false := by
  constructor
  · decide
  · decide

/-- Witness for C6: a push to an unavailable device with an empty payload
re-arms the deadline, restores availability and reports a change. -/
theorem claim_C6_witness :
    (push_data "status" 7 [] { sampleState with isAvailable := false }).2.deadline =
      some (7 + TIME_TILL_UNAVAILABLE) ∧
    (push_data "status" 7 [] { sampleState with isAvailable := false }).2.isAvailable = true ∧
    ∀ b, (push_data "status" 7 [] { sampleState with isAvailable := false }).1 = some b →
      b = true :=
  ⟨(claim_C6_availability "status" 7 [] { sampleState with isAvailable := false }).1,
   ((claim_C6_availability "status" 7 [] { sampleState with isAvailable := false }).2 (by decide)).1,
   ((claim_C6_availability "status" 7 [] { sampleState with isAvailable := false }).2 (by decide)).2⟩

/-- The key half of the matching loop computes the key of the last
matching entry (falling back to the accumulator when none matches). -/
theorem iam_foldl_fst (respSid : String) :
    ∀ (configs : List GatewayConf) (acc : Option String × Bool),
      (configs.foldl (iam_step respSid) acc).1 =
        match lastMatch respSid configs with
        | some g => g.key
        | none => acc.1 := by
  intro configs
  induction configs with
  | nil => intro acc; simp [lastMatch]
  | cons g rest ih =>
    intro acc
    rw [List.foldl_cons, ih]
    cases hl : lastMatch respSid rest with
    | some m => simp [lastMatch, hl]
    | none =>
      by_cases hg : g.sid = none ∨ g.sid = some respSid
      · simp [lastMatch, hl, iam_step, hg]
      · simp [lastMatch, hl, iam_step, hg]

/-- The disabled half of the matching loop is a disjunction over the
entries with a truthy, exactly matching, disabled sid. -/
theorem iam_foldl_snd (respSid : String) :
    ∀ (configs : List GatewayConf) (acc : Option String × Bool),
      (configs.foldl (iam_step respSid) acc).2 =
        (acc.2 || configs.any (disable_hit respSid)) := by
  intro configs
  induction configs with
  | nil => intro acc; simp
  | cons g rest ih =>
    intro acc
    rw [List.foldl_cons, ih]
    simp [iam_step, Bool.or_assoc]

/-- The matching loop, characterized: the inherited key is the key of the
last entry whose sid is absent or equals the response sid, and the
disabled flag is whether any truthy exact match is marked disabled. -/
theorem iam_match_spec (configs : List GatewayConf) (respSid : String) :
    iam_match configs respSid =
      ((match lastMatch respSid configs with
        | some g => g.key
        | none => none),
       configs.any (disable_hit respSid)) := by
  unfold iam_match
  refine Prod.ext ?_ ?_
  · rw [iam_foldl_fst]
  · rw [iam_foldl_snd]
    simp

/-- C5 (amended): for an `iam` response from a fresh IP with a recognized
model, if some entry with a truthy sid exactly equal to the response sid
is marked disabled, the IP is recorded as disabled and no hub is created;
otherwise a hub is created whose key is that of the LAST entry whose sid
is absent or equals the response sid (no preference for an exact match),
and whose miio token is read from the LAST config entry regardless of
matching; with an empty config list, hub creation raises (`NameError` on
the loop variable) instead. -/
theorem claim_C5_amended (models : List String) (configs : List GatewayConf)
    (resp : IamResp) (ip : String) (gateways : List (String × Hub))
    (disabled : List String)
    (hfresh : gateways.lookup ip = none) (hdis : ip ∉ disabled)
    (hmodel : resp.model ∈ models) :
    (configs.any (disable_hit resp.sid) = true →
      iam_process models configs resp ip gateways disabled =
        some (gateways, disabled ++ [ip])) ∧
    (configs.any (disable_hit resp.sid) = false →
      ∀ last, configs.getLast? = some last →
        iam_process models configs resp ip gateways disabled =
          some (setAssoc gateways ip
            { ip := ip, port := resp.port, sid := resp.sid,
              key := match lastMatch resp.sid configs with
                     | some g => g.key
                     | none => none,
              proto := resp.proto_version,
              miio_token := last.miio_token }, disabled)) ∧
    (configs = [] →
      iam_process models configs resp ip gateways disabled = none) := by
  refine ⟨fun hany => ?_, fun hany last hlast => ?_, fun hnil => ?_⟩
  · unfold iam_process
    rw [iam_match_spec]
    simp [hfresh, hdis, hmodel, hany]
  · unfold iam_process
    rw [iam_match_spec]
    simp [hfresh, hdis, hmodel, hany, hlast]
  · subst hnil
    unfold iam_process
    rw [iam_match_spec]
    simp [hfresh, hdis, hmodel]

/-- A static entry declaring a sid, a key and a miio token. -/
def confA : GatewayConf :=
  { key := some "keyAkeyAkeyAkeyA", host := none, port := none,
    disable := false, sid := some "aabbccddeeff01", miio_token := some "tokenA" }

/-- A second static entry with a different sid, key and miio token. -/
def confB : GatewayConf :=
  { key := some "keyBkeyBkeyBkeyB", host := none, port := none,
    disable := false, sid := some "bbbbccddeeff02", miio_token := some "tokenB" }

/-- An `iam` response whose sid equals `confA`'s sid. -/
def respA : IamResp :=
  { sid := "aabbccddeeff01", model := "gateway", port := 9898,
    proto_version := some "1.1.2" }

/-- Counterexample to C5 as stated: the response matches `confA` exactly
(and the created hub does inherit `confA`'s key), yet the hub's miio
token is `confB`'s `"tokenB"` — the token of the last config entry — and
not the matched entry's `"tokenA"`. -/
theorem claim_C5_counterexample :
    iam_process ["gateway"] [confA, confB] respA "192.168.1.7" [] [] =
      some ([("192.168.1.7",
        { ip := "192.168.1.7", port := 9898, sid := "aabbccddeeff01",
          key := some "keyAkeyAkeyAkeyA", proto := some "1.1.2",
          miio_token := some "tokenB" })], []) ∧
    some "tokenB" ≠ confA.miio_token := by
  constructor
  · decide
  · decide

/-- Witness for C5 (amended): a disabled exact match records the IP, and
a non-disabled config creates the hub with the last entry's token. -/
theorem claim_C5_witness :
    iam_process ["gateway"] [{ confA with disable := true }, confB] respA
        "192.168.1.9" [] [] = some ([], ["192.168.1.9"]) ∧
    iam_process ["gateway"] [confA, confB] respA "192.168.1.9" [] [] =
      some (setAssoc [] "192.168.1.9"
        { ip := "192.168.1.9", port := respA.port, sid := respA.sid,
          key := match lastMatch respA.sid [confA, confB] with
                 | some g => g.key
                 | none => none,
          proto := respA.proto_version,
          miio_token := confB.miio_token }, []) :=
  ⟨by
    have h := (claim_C5_amended ["gateway"] [{ confA with disable := true }, confB]
      respA "192.168.1.9" [] [] (by decide) (by decide) (by decide)).1 (by decide)
    simpa using h,
   ((claim_C5_amended ["gateway"] [confA, confB] respA "192.168.1.9" [] []
      (by decide) (by decide) (by decide)).2.1 (by decide) confB (by decide))⟩

/-- A sole static entry with host and port but no declared sid. -/
def confNoSid : GatewayConf :=
  { key := some "1234567890123456", host := some "gw.local", port := some 9898,
    disable := false, sid := none, miio_token := none }

/-- A DNS table resolving every hostname to `192.168.1.5`. -/
def resolveSample : String → Option String :=
  fun _ => some "192.168.1.5"

/-- Counterexample to C3 as stated: a sole static entry with resolvable
host `gw.local` and port 9898 but no declared sid produces NO hub in the
static phase (and nothing in the disabled set) — the code requires
`host and port and sid` before instantiating statically. -/
theorem claim_C3_counterexample :
    static_discover resolveSample [confNoSid] ([], []) = ([], []) ∧
    confNoSid.host = some "gw.local" ∧ confNoSid.port = some 9898 ∧
    resolveSample "gw.local" = some "192.168.1.5" ∧ confNoSid.disable = false := by
  refine ⟨?_, by decide, by decide, by decide, by decide⟩
  decide

/-- C3 (amended): the static phase instantiates a hub only for entries
whose host, port AND sid are all present and truthy: such an entry with a
resolving host yields a hub at the resolved IP (or, when marked disabled,
only an entry in the disabled set), while any entry lacking a sid is
skipped outright, even a sole one. -/
theorem claim_C3_amended (resolve : String → Option String)
    (g : GatewayConf) (rest : List GatewayConf)
    (gateways : List (String × Hub)) (disabled : List String)
    (host : String) (port : ℕ) (sid : String) (ip : String)
    (hh : g.host = some host) (hp : g.port = some port) (hs : g.sid = some sid)
    (hh0 : host ≠ "") (hp0 : port ≠ 0) (hs0 : sid ≠ "")
    (hres : resolve host = some ip) :
    (g.disable = false →
      static_discover resolve (g :: rest) (gateways, disabled) =
        static_discover resolve rest
          (setAssoc gateways ip
            { ip := ip, port := port, sid := sid, key := g.key,
              proto := none, miio_token := g.miio_token }, disabled)) ∧
    (g.disable = true →
      static_discover resolve (g :: rest) (gateways, disabled) =
        static_discover resolve rest (gateways, disabled ++ [ip])) ∧
    (∀ g₀ : GatewayConf, g₀.sid = none →
      static_discover resolve (g₀ :: rest) (gateways, disabled) =
        static_discover resolve rest (gateways, disabled)) := by
  refine ⟨fun hd => ?_, fun hd => ?_, fun g₀ hs₀ => ?_⟩
  · simp [static_discover, hh, hp, hs, hh0, hp0, hs0, hres, hd]
  · simp [static_discover, hh, hp, hs, hh0, hp0, hs0, hres, hd]
  · cases hh₀ : g₀.host <;> cases hp₀ : g₀.port <;>
      simp [static_discover, hh₀, hp₀, hs₀]

/-- An enabled static entry declaring host, port and sid. -/
def confFull : GatewayConf :=
  { key := some "1234567890123456", host := some "gw.local", port := some 9898,
    disable := false, sid := some "aabbccddeeff", miio_token := some "tok" }

/-- Witness for C3 (amended): the fully declared entry produces exactly
one hub at the resolved IP, and a sid-less entry is skipped. -/
theorem claim_C3_witness :
    static_discover resolveSample [confFull] ([], []) =
      static_discover resolveSample []
        (setAssoc [] "192.168.1.5"
          { ip := "192.168.1.5", port := 9898, sid := "aabbccddeeff",
            key := confFull.key, proto := none,
            miio_token := confFull.miio_token }, []) ∧
    static_discover resolveSample [confNoSid] ([], []) =
      static_discover resolveSample [] ([], []) :=
  ⟨(claim_C3_amended resolveSample confFull [] [] [] "gw.local" 9898
      "aabbccddeeff" "192.168.1.5" (by decide) (by decide) (by decide)
      (by decide) (by decide) (by decide) (by decide)).1 (by decide),
   (claim_C3_amended resolveSample confFull [] [] [] "gw.local" 9898
      "aabbccddeeff" "192.168.1.5" (by decide) (by decide) (by decide)
      (by decide) (by decide) (by decide) (by decide)).2.2 confNoSid (by decide)⟩

/-- Validation with a required mac succeeds only on entries declaring one. -/
theorem validate_entry_mac (e : RawGatewayConf) (pe : PreConf)
    (h : validate_entry true e = some pe) : e.mac.isSome = true := by
  cases hm : e.mac with
  | none =>
    exfalso
    unfold validate_entry at h
    rw [hm] at h
    cases hk : (match e.key with
                | none => some none
                | some k => if k.length = 16 then some (some k) else none) with
    | none => rw [hk] at h; exact Option.noConfusion h
    | some key =>
      rw [hk] at h
      by_cases hport : 1 ≤ e.port.getD 9898 ∧ e.port.getD 9898 ≤ 65535
      · simp only [hport, if_true] at h
        exact Option.noConfusion h
      · simp only [hport, if_false] at h
        exact Option.noConfusion h
  | some m => rfl

/-- Mac-required validation of a list succeeds only when every entry
declares a mac. -/
theorem validate_list_mac :
    ∀ (entries : List RawGatewayConf) (l : List PreConf),
      validate_list true entries = some l →
      ∀ e ∈ entries, e.mac.isSome = true := by
  intro entries
  induction entries with
  | nil => simp
  | cons e rest ih =>
    intro l h x hx
    unfold validate_list at h
    cases he : validate_entry true e with
    | none => rw [he] at h; exact Option.noConfusion h
    | some pe =>
      cases hr : validate_list true rest with
      | none => rw [he, hr] at h; exact Option.noConfusion h
      | some pes =>
        rcases List.mem_cons.mp hx with hx | hx
        · rw [hx]; exact validate_entry_mac e pe he
        · exact ih pes hr x hx

/-- C8: the gateway-list schema accepts a configuration only when it has
at most one entry (mac/sid optional) or when it has two or more entries
and every one of them declares a mac/sid; in particular two entries both
lacking a sid are rejected. -/
theorem claim_C8_schema (entries : List RawGatewayConf) (out : List GatewayConf)
    (h : validate_gateways entries = some out) :
    entries.length ≤ 1 ∨
      (2 ≤ entries.length ∧ ∀ e ∈ entries, e.mac.isSome = true) := by
  unfold validate_gateways at h
  cases hb1 : validate_list false entries with
  | some l1 =>
    by_cases hlen : entries.length ≤ 1
    · exact Or.inl hlen
    · right
      simp only [hb1, hlen, if_false] at h
      cases hb2 : validate_list true entries with
      | none => rw [hb2] at h; simp [Option.orElse] at h
      | some l2 =>
        by_cases hlen2 : 2 ≤ entries.length
        · exact ⟨hlen2, validate_list_mac entries l2 hb2⟩
        · rw [hb2] at h
          simp [Option.orElse, hlen2] at h
  | none =>
    simp only [hb1] at h
    cases hb2 : validate_list true entries with
    | none => rw [hb2] at h; simp [Option.orElse] at h
    | some l2 =>
      by_cases hlen2 : 2 ≤ entries.length
      · exact Or.inr ⟨hlen2, validate_list_mac entries l2 hb2⟩
      · rw [hb2] at h
        simp [Option.orElse, hlen2] at h

/-- A raw entry declaring only a mac. -/
def rawMacOnly : RawGatewayConf :=
  { key := none, host := none, port := none, disable := none,
    mac := some "aa:bb:cc:dd:ee:ff", miio_token := none }

/-- Witness for C8 at an accepted two-entry configuration. -/
theorem claim_C8_witness :
    ([rawMacOnly, rawMacOnly] : List RawGatewayConf).length ≤ 1 ∨
      (2 ≤ ([rawMacOnly, rawMacOnly] : List RawGatewayConf).length ∧
        ∀ e ∈ [rawMacOnly, rawMacOnly], e.mac.isSome = true) :=
  claim_C8_schema [rawMacOnly, rawMacOnly]
    [ { key := none, host := none, port := none, disable := false,
        sid := some "aabbccddeeff", miio_token := none },
      { key := none, host := none, port := none, disable := false,
        sid := some "aabbccddeeff", miio_token := none } ]
    (by decide)

/-- A raw entry declaring a (colon-free) duplicate-prone mac. -/
def rawDup : RawGatewayConf :=
  { key := none, host := none, port := none, disable := none,
    mac := some "aabbccddeeff", miio_token := none }

/-- Counterexample to C4 as stated: two static entries declaring the SAME
sid `aabbccddeeff` pass configuration validation — no duplicate-sid check
exists, so no configuration-validation failure is raised before network
activity. -/
theorem claim_C4_counterexample :
    validate_gateways [rawDup, rawDup] =
      some
        [ { key := none, host := none, port := none, disable := false,
            sid := some "aabbccddeeff", miio_token := none },
          { key := none, host := none, port := none, disable := false,
            sid := some "aabbccddeeff", miio_token := none } ] := by
  decide

/-- C4 (amended): configuration validation does not check sid uniqueness:
any entry that individually validates with a declared mac is accepted
even when listed twice, so discovery proceeds with duplicate sids rather
than raising a configuration-validation failure. -/
theorem claim_C4_amended (e : RawGatewayConf) (pe : PreConf)
    (h : validate_entry true e = some pe) :
    validate_gateways [e, e] =
      some [fix_conf_defaults pe, fix_conf_defaults pe] := by
  unfold validate_gateways
  have hb2 : validate_list true [e, e] = some [pe, pe] := by
    unfold validate_list
    unfold validate_list
    rw [h]
    rfl
  cases hb1 : validate_list false [e, e] with
  | none => simp [hb1, hb2, Option.orElse]
  | some l1 => simp [hb1, hb2, Option.orElse]

/-- Witness for C4 (amended) at the duplicate mac `aabbccddeeff`. -/
theorem claim_C4_witness :
    validate_gateways [rawDup, rawDup] =
      some
        [ fix_conf_defaults
            { key := none, host := none, port := 9898, disable := false,
              mac := some "aabbccddeeff", miio_token := none },
          fix_conf_defaults
            { key := none, host := none, port := 9898, disable := false,
              mac := some "aabbccddeeff", miio_token := none } ] :=
  claim_C4_amended rawDup
    { key := none, host := none, port := 9898, disable := false,
      mac := some "aabbccddeeff", miio_token := none }
    (by decide)

end XiaomiAqara
